import Mathlib

/-!
Shallow embedding of the tweet → LLM → structured-event pipeline and its
dashboard (sources: `pipeline.py`, `event_classifier.py`, `x_scraper.py`,
`app.py`).  External collaborators (the X HTTP API and the OpenAI chat
endpoint) are abstracted as parameters: the Fetcher's result is a list of
raw posts, the Classifier's network call is a function from tweet text to
an `Except`-value (a raised exception on the error side).  File-system
effects are modelled as an explicit trace of writes.
-/

/-- A raw post as assembled by `XScraper.collect_tweets`
(`x_scraper.py`): `{id, created_at, text}`. -/
structure RawPost where
  id : String
  created_at : String
  text : String
deriving DecidableEq, Repr

/-- A classification result as returned by `LLM._infer_event_from_tweet`
(`event_classifier.py`). -/
structure Event where
  event_type : String
  country_region : String
  impact : String
  explanation : String
deriving DecidableEq, Repr

/-- One record of a structured-events file, as assembled inside
`execute_pipeline` (`pipeline.py`, the loop body). -/
structure StructuredEvent where
  tweet_id : String
  tweet_created_at : String
  tweet_text : String
  event_type : String
  country_region : String
  impact : String
  explanation : String
deriving DecidableEq, Repr

/-- `EVENT_TYPES` from `event_classifier.py`. -/
def EVENT_TYPES : List String :=
  ["MACRO_DATA", "CENTRAL_BANK", "EARNINGS", "GEOPOLITICS", "CRYPTO",
   "COMMODITIES", "POLICY/REGULATION", "OTHER"]

/-- `COUNTRY_REGIONS` from `event_classifier.py`. -/
def COUNTRY_REGIONS : List String := ["US", "EU", "China", "UK", "Global"]

/-- `IMPACTS` from `event_classifier.py`. -/
def IMPACTS : List String := ["Faible", "Moyen", "Élevé"]

/-- The JSON object parsed from the LLM's reply, restricted to the four
keys `_infer_event_from_tweet` reads; a `none` field models an absent key
(`data.get(key, default)` then substitutes the default). -/
structure LLMResponse where
  event_type : Option String
  country_region : Option String
  impact : Option String
  explanation : Option String
deriving DecidableEq, Repr

/-- The post-parse normalisation of `LLM._infer_event_from_tweet`
(`event_classifier.py`): build the event dict with `.get` defaults, then
overwrite each enumerated field that is not in its allowed list. -/
def infer_event_from_tweet (data : LLMResponse) : Event :=
  let event : Event :=
    { event_type := data.event_type.getD "OTHER"
      country_region := data.country_region.getD "Global"
      impact := data.impact.getD "Faible"
      explanation := data.explanation.getD "No explanation provided by the model." }
  let event := if event.event_type ∈ EVENT_TYPES then event
    else { event with event_type := "OTHER" }
  let event := if event.country_region ∈ COUNTRY_REGIONS then event
    else { event with country_region := "Global" }
  let event := if event.impact ∈ IMPACTS then event
    else { event with impact := "Faible" }
  event

/-- `api_max_results = max(5, min(max_tweets, 100))` from
`XScraper.collect_tweets` (`x_scraper.py`). -/
def api_max_results (max_tweets : Int) : Int :=
  max 5 (min max_tweets 100)

/-- The content written to a JSON file by the pipeline. -/
inductive FileContent
  | rawPosts (posts : List RawPost)
  | structuredEvents (events : List StructuredEvent)
deriving DecidableEq, Repr

/-- One file write performed by the pipeline: directory, filename,
serialised content. -/
structure FileWrite where
  dir : String
  filename : String
  content : FileContent
deriving DecidableEq, Repr

/-- `export_raw_tweets_json` (`pipeline.py`): writes
`{pfx}_tweets_raw.json` in `output_dir`. -/
def export_raw_tweets_json (tweets : List RawPost) (output_dir pfx : String) :
    FileWrite :=
  { dir := output_dir
    filename := pfx ++ "_tweets_raw.json"
    content := FileContent.rawPosts tweets }

/-- `export_events_json` (`pipeline.py`): writes `{pfx}_events.json`
in `output_dir`. -/
def export_events_json (events : List StructuredEvent) (output_dir pfx : String) :
    FileWrite :=
  { dir := output_dir
    filename := pfx ++ "_events.json"
    content := FileContent.structuredEvents events }

/-- The record appended for one tweet inside `execute_pipeline`'s loop
(`pipeline.py`): the raw post's `id`/`created_at`/`text` merged with the
classifier's four fields. -/
def mkStructuredEvent (t : RawPost) (event : Event) : StructuredEvent :=
  { tweet_id := t.id
    tweet_created_at := t.created_at
    tweet_text := t.text
    event_type := event.event_type
    country_region := event.country_region
    impact := event.impact
    explanation := event.explanation }

/-- The per-post classification loop of `execute_pipeline`
(`pipeline.py`): sequentially classify each tweet's text, appending one
structured record per tweet in fetch order; the first raised exception
propagates and aborts the rest of the loop. -/
def classifyLoop {ε : Type} (classify : String → Except ε Event) :
    List RawPost → Except ε (List StructuredEvent)
  | [] => Except.ok []
  | t :: ts =>
    match classify t.text with
    | Except.error e => Except.error e
    | Except.ok event =>
      match classifyLoop classify ts with
      | Except.error e => Except.error e
      | Except.ok rest => Except.ok (mkStructuredEvent t event :: rest)

/-- The observable outcome of one `execute_pipeline` run: the trace of
file writes, in order, and the exception (if any) that propagated to the
caller. -/
structure PipelineResult (ε : Type) where
  writes : List FileWrite
  error : Option ε
deriving DecidableEq, Repr

/-- `execute_pipeline` (`pipeline.py`) with the Fetcher's result
(`tweets`) and the Classifier's network call (`classify`) abstracted as
parameters and `timestamp` the run's UTC timestamp string: empty fetch
stops without writing; otherwise the raw file is written, then the
classification loop runs, and only a fully successful loop writes the
structured-events file. -/
def execute_pipeline {ε : Type} (classify : String → Except ε Event)
    (username timestamp : String) (tweets : List RawPost)
    (output_root : String) : PipelineResult ε :=
  let pfx := username ++ "_" ++ timestamp
  let raw_dir := output_root ++ "/raw_tweets"
  let structured_dir := output_root ++ "/structured_events"
  if tweets.isEmpty then { writes := [], error := none }
  else
    let rawWrite := export_raw_tweets_json tweets raw_dir pfx
    match classifyLoop classify tweets with
    | Except.error e => { writes := [rawWrite], error := some e }
    | Except.ok events =>
      { writes := [rawWrite, export_events_json events structured_dir pfx]
        error := none }

/-- Helper: a successful classification loop yields one structured record
per tweet, in order, copying `id`, `created_at` and `text`. -/
theorem classifyLoop_ok_spec {ε : Type} (classify : String → Except ε Event) :
    ∀ (ts : List RawPost) (evs : List StructuredEvent),
      classifyLoop classify ts = Except.ok evs →
      evs.length = ts.length ∧
      ∀ i : Nat, i < ts.length →
        ∃ t e, ts[i]? = some t ∧ evs[i]? = some e ∧
          e.tweet_id = t.id ∧ e.tweet_created_at = t.created_at ∧
          e.tweet_text = t.text := by
  intro ts
  induction ts with
  | nil =>
    intro evs h
    simp [classifyLoop] at h
    subst h
    exact ⟨rfl, fun i hi => absurd hi (by simp)⟩
  | cons t ts ih =>
    intro evs h
    simp only [classifyLoop] at h
    cases hc : classify t.text with
    | error e => rw [hc] at h; cases h
    | ok event =>
      rw [hc] at h
      cases hrest : classifyLoop classify ts with
      | error e => rw [hrest] at h; cases h
      | ok rest =>
        rw [hrest] at h
        cases h
        obtain ⟨hlen, hidx⟩ := ih rest hrest
        refine ⟨by simp [hlen], ?_⟩
        intro i hi
        cases i with
        | zero =>
          refine ⟨t, mkStructuredEvent t event, by simp, by simp, rfl, rfl, rfl⟩
        | succ j =>
          obtain ⟨t', e', ht', he', h1, h2, h3⟩ :=
            hidx j (by simpa using hi)
          exact ⟨t', e', by simpa using ht', by simpa using he', h1, h2, h3⟩

/-- Helper: if every tweet's text classifies successfully, the loop
succeeds. -/
theorem classifyLoop_ok_of_all_ok {ε : Type} (classify : String → Except ε Event) :
    ∀ ts : List RawPost,
      (∀ t ∈ ts, ∃ ev, classify t.text = Except.ok ev) →
      ∃ evs, classifyLoop classify ts = Except.ok evs := by
  intro ts
  induction ts with
  | nil => intro _; exact ⟨[], rfl⟩
  | cons t ts ih =>
    intro h
    obtain ⟨ev, hev⟩ := h t (by simp)
    obtain ⟨evs, hevs⟩ := ih fun t' ht' => h t' (by simp [ht'])
    exact ⟨mkStructuredEvent t ev :: evs, by simp [classifyLoop, hev, hevs]⟩

/-- Helper: if some tweet's text fails to classify, the loop raises. -/
theorem classifyLoop_error_of_exists_error {ε : Type}
    (classify : String → Except ε Event) :
    ∀ ts : List RawPost,
      (∃ t ∈ ts, ∃ e, classify t.text = Except.error e) →
      ∃ e, classifyLoop classify ts = Except.error e := by
  intro ts
  induction ts with
  | nil => rintro ⟨t, ht, _⟩; cases ht
  | cons t ts ih =>
    rintro ⟨t', ht', e, he⟩
    cases hc : classify t.text with
    | error e0 => exact ⟨e0, by simp [classifyLoop, hc]⟩
    | ok ev =>
      have ht's : t' ∈ ts := by
        rcases List.mem_cons.mp ht' with rfl | h
        · rw [hc] at he; cases he
        · exact h
      obtain ⟨e1, he1⟩ := ih ⟨t', ht's, e, he⟩
      exact ⟨e1, by simp [classifyLoop, hc, he1]⟩

/-- C1: if the Fetcher returned a non-empty list and every per-post
classification succeeds, the run writes the raw file and then a
structured-events file with exactly one entry per raw post, the i-th
entry copying the i-th post's `id`, `created_at` and `text`, in fetch
order. -/
theorem pipeline_success_one_event_per_post {ε : Type}
    (classify : String → Except ε Event)
    (username timestamp output_root : String) (tweets : List RawPost)
    (hne : tweets ≠ [])
    (hok : ∀ t ∈ tweets, ∃ ev, classify t.text = Except.ok ev) :
    ∃ events : List StructuredEvent,
      execute_pipeline classify username timestamp tweets output_root =
        { writes :=
            [export_raw_tweets_json tweets (output_root ++ "/raw_tweets")
               (username ++ "_" ++ timestamp),
             export_events_json events (output_root ++ "/structured_events")
               (username ++ "_" ++ timestamp)]
          error := none } ∧
      events.length = tweets.length ∧
      ∀ i : Nat, i < tweets.length →
        ∃ t e, tweets[i]? = some t ∧ events[i]? = some e ∧
          e.tweet_id = t.id ∧ e.tweet_created_at = t.created_at ∧
          e.tweet_text = t.text := by
  obtain ⟨events, hloop⟩ := classifyLoop_ok_of_all_ok classify tweets hok
  obtain ⟨hlen, hidx⟩ := classifyLoop_ok_spec classify tweets events hloop
  refine ⟨events, ?_, hlen, hidx⟩
  simp [execute_pipeline, hne, hloop]

/-- C1 witness: a concrete 2-post run. -/
theorem pipeline_success_one_event_per_post_witness :
    ∃ events : List StructuredEvent,
      execute_pipeline
          (fun _ => Except.ok
            { event_type := "OTHER", country_region := "Global",
              impact := "Faible", explanation := "e" } :
            String → Except Unit Event)
          "financialjuice" "20250101_000000"
          [{ id := "1", created_at := "2025-01-01T00:00:00Z", text := "a" },
           { id := "2", created_at := "2025-01-01T00:01:00Z", text := "b" }]
          "./data" =
        { writes :=
            [export_raw_tweets_json
               [{ id := "1", created_at := "2025-01-01T00:00:00Z", text := "a" },
                { id := "2", created_at := "2025-01-01T00:01:00Z", text := "b" }]
               ("./data" ++ "/raw_tweets")
               ("financialjuice" ++ "_" ++ "20250101_000000"),
             export_events_json events ("./data" ++ "/structured_events")
               ("financialjuice" ++ "_" ++ "20250101_000000")]
          error := none } ∧
      events.length =
        ([{ id := "1", created_at := "2025-01-01T00:00:00Z", text := "a" },
          { id := "2", created_at := "2025-01-01T00:01:00Z", text := "b" }] :
            List RawPost).length ∧
      ∀ i : Nat,
        i < ([{ id := "1", created_at := "2025-01-01T00:00:00Z", text := "a" },
              { id := "2", created_at := "2025-01-01T00:01:00Z", text := "b" }] :
                List RawPost).length →
        ∃ t e,
          ([{ id := "1", created_at := "2025-01-01T00:00:00Z", text := "a" },
            { id := "2", created_at := "2025-01-01T00:01:00Z", text := "b" }] :
              List RawPost)[i]? = some t ∧ events[i]? = some e ∧
          e.tweet_id = t.id ∧ e.tweet_created_at = t.created_at ∧
          e.tweet_text = t.text :=
  pipeline_success_one_event_per_post _ _ _ _ _ (by simp)
    (fun t _ => ⟨_, rfl⟩)

/-- C2: if the fetch is non-empty and some post's classification raises,
the run's only write is the raw-posts file — no structured file at all,
not even a partial one — and the exception propagates to the caller. -/
theorem pipeline_classification_failure_aborts {ε : Type}
    (classify : String → Except ε Event)
    (username timestamp output_root : String) (tweets : List RawPost)
    (hne : tweets ≠ [])
    (hfail : ∃ t ∈ tweets, ∃ e, classify t.text = Except.error e) :
    ∃ err : ε,
      execute_pipeline classify username timestamp tweets output_root =
        { writes :=
            [export_raw_tweets_json tweets (output_root ++ "/raw_tweets")
               (username ++ "_" ++ timestamp)]
          error := some err } := by
  obtain ⟨err, herr⟩ := classifyLoop_error_of_exists_error classify tweets hfail
  exact ⟨err, by simp [execute_pipeline, hne, herr]⟩

/-- C2 witness: a concrete run whose single post fails to classify. -/
theorem pipeline_classification_failure_aborts_witness :
    ∃ err : Unit,
      execute_pipeline (fun _ => Except.error () : String → Except Unit Event)
          "financialjuice" "20250101_000000"
          [{ id := "1", created_at := "2025-01-01T00:00:00Z", text := "a" }]
          "./data" =
        { writes :=
            [export_raw_tweets_json
               [{ id := "1", created_at := "2025-01-01T00:00:00Z", text := "a" }]
               ("./data" ++ "/raw_tweets")
               ("financialjuice" ++ "_" ++ "20250101_000000")]
          error := some err } :=
  pipeline_classification_failure_aborts _ _ _ _ _ (by simp)
    ⟨{ id := "1", created_at := "2025-01-01T00:00:00Z", text := "a" },
      by simp, (), rfl⟩

/-- C3: an empty fetch returns normally — no raised error and no file
written, neither raw nor structured. -/
theorem pipeline_empty_fetch_no_writes {ε : Type}
    (classify : String → Except ε Event)
    (username timestamp output_root : String) :
    execute_pipeline classify username timestamp [] output_root =
      { writes := [], error := none } :=
  rfl

/-- C6: the number of posts requested from the listing endpoint is
`clamp(limit, 5, 100)`: below 5 is raised to 5, above 100 lowered to
100, and values in `[5, 100]` pass through unchanged. -/
theorem api_max_results_clamps (limit : Int) :
    (limit < 5 → api_max_results limit = 5) ∧
    (100 < limit → api_max_results limit = 100) ∧
    (5 ≤ limit → limit ≤ 100 → api_max_results limit = limit) := by
  unfold api_max_results
  refine ⟨fun h => ?_, fun h => ?_, fun h1 h2 => ?_⟩ <;> omega

/-- C6 witness: the three clamp regimes at concrete limits. -/
theorem api_max_results_clamps_witness :
    api_max_results 2 = 5 ∧ api_max_results 500 = 100 ∧
    api_max_results 50 = 50 :=
  ⟨(api_max_results_clamps 2).1 (by decide),
   (api_max_results_clamps 500).2.1 (by decide),
   (api_max_results_clamps 50).2.2 (by decide) (by decide)⟩

/-- Helper: the field-by-field behaviour of
`infer_event_from_tweet` — coercion of out-of-vocabulary enumerated
values, preservation of in-vocabulary ones, explanation pass-through
with the default only on an absent key. -/
theorem infer_event_fields_spec (data : LLMResponse) :
    (∀ v, data.event_type = some v →
      (infer_event_from_tweet data).event_type =
        if v ∈ EVENT_TYPES then v else "OTHER") ∧
    (∀ v, data.country_region = some v →
      (infer_event_from_tweet data).country_region =
        if v ∈ COUNTRY_REGIONS then v else "Global") ∧
    (∀ v, data.impact = some v →
      (infer_event_from_tweet data).impact =
        if v ∈ IMPACTS then v else "Faible") ∧
    (∀ s, data.explanation = some s →
      (infer_event_from_tweet data).explanation = s) ∧
    (data.explanation = none →
      (infer_event_from_tweet data).explanation =
        "No explanation provided by the model.") := by
  obtain ⟨et, cr, im, ex⟩ := data
  refine ⟨?_, ?_, ?_, ?_, ?_⟩
  · rintro v rfl
    simp only [infer_event_from_tweet, Option.getD_some]
    split_ifs <;> simp_all
  · rintro v rfl
    simp only [infer_event_from_tweet, Option.getD_some]
    split_ifs <;> simp_all
  · rintro v rfl
    simp only [infer_event_from_tweet, Option.getD_some]
    split_ifs <;> simp_all
  · rintro s rfl
    simp only [infer_event_from_tweet, Option.getD_some]
    split_ifs <;> simp_all
  · rintro rfl
    simp only [infer_event_from_tweet, Option.getD_none]
    split_ifs <;> simp_all

/-- C4: each enumerated field is coerced independently — an
out-of-vocabulary `event_type`/`country_region`/`impact` becomes exactly
`OTHER`/`Global`/`Faible` while an in-vocabulary value is preserved —
and the explanation is passed through as-is when present, with the
default string substituted only when the key is absent. -/
theorem infer_event_coerces_fields (data : LLMResponse) :
    (∀ v, data.event_type = some v →
      (infer_event_from_tweet data).event_type =
        if v ∈ EVENT_TYPES then v else "OTHER") ∧
    (∀ v, data.country_region = some v →
      (infer_event_from_tweet data).country_region =
        if v ∈ COUNTRY_REGIONS then v else "Global") ∧
    (∀ v, data.impact = some v →
      (infer_event_from_tweet data).impact =
        if v ∈ IMPACTS then v else "Faible") ∧
    (∀ s, data.explanation = some s →
      (infer_event_from_tweet data).explanation = s) ∧
    (data.explanation = none →
      (infer_event_from_tweet data).explanation =
        "No explanation provided by the model.") :=
  infer_event_fields_spec data

/-- C4 witness: an all-out-of-vocabulary response is coerced to the
defaults, and an in-vocabulary response is preserved. -/
theorem infer_event_coerces_fields_witness :
    (infer_event_from_tweet
      { event_type := some "BANANA", country_region := some "Mars",
        impact := some "Huge", explanation := some "why" }).event_type =
      "OTHER" ∧
    (infer_event_from_tweet
      { event_type := some "CRYPTO", country_region := some "US",
        impact := some "Moyen", explanation := some "why" }).impact =
      "Moyen" ∧
    (infer_event_from_tweet
      { event_type := some "CRYPTO", country_region := some "US",
        impact := some "Moyen", explanation := some "why" }).explanation =
      "why" := by
  refine ⟨?_, ?_, ?_⟩
  · have h := (infer_event_coerces_fields
      { event_type := some "BANANA", country_region := some "Mars",
        impact := some "Huge", explanation := some "why" }).1 "BANANA" rfl
    rw [h]; decide
  · have h := (infer_event_coerces_fields
      { event_type := some "CRYPTO", country_region := some "US",
        impact := some "Moyen", explanation := some "why" }).2.2.1 "Moyen" rfl
    rw [h]; decide
  · exact (infer_event_coerces_fields
      { event_type := some "CRYPTO", country_region := some "US",
        impact := some "Moyen", explanation := some "why" }).2.2.2.1 "why" rfl

/-- C9 counterexample: a run in which the service answers with an empty
explanation string produces a structured event whose explanation is the
empty string — the claimed non-emptiness fails. -/
theorem explanation_nonempty_counterexample :
    execute_pipeline
        (fun _ => Except.ok
          (infer_event_from_tweet
            { event_type := some "OTHER", country_region := some "Global",
              impact := some "Faible", explanation := some "" }) :
          String → Except Unit Event)
        "financialjuice" "20250101_000000"
        [{ id := "1", created_at := "2025-01-01T00:00:00Z", text := "a" }]
        "./data" =
      { writes :=
          [export_raw_tweets_json
             [{ id := "1", created_at := "2025-01-01T00:00:00Z", text := "a" }]
             ("./data" ++ "/raw_tweets")
             ("financialjuice" ++ "_" ++ "20250101_000000"),
           export_events_json
             [{ tweet_id := "1", tweet_created_at := "2025-01-01T00:00:00Z",
                tweet_text := "a", event_type := "OTHER",
                country_region := "Global", impact := "Faible",
                explanation := "" }]
             ("./data" ++ "/structured_events")
             ("financialjuice" ++ "_" ++ "20250101_000000")]
        error := none } ∧
    ({ tweet_id := "1", tweet_created_at := "2025-01-01T00:00:00Z",
       tweet_text := "a", event_type := "OTHER", country_region := "Global",
       impact := "Faible", explanation := "" } : StructuredEvent).explanation
      = "" := by
  constructor
  · decide
  · rfl

/-- C9 amended: a structured event's explanation is copied verbatim from
the classifier's output; it is the non-empty default string exactly when
the service omitted the explanation key, and the service's own (possibly
empty) explanation when the key is present. -/
theorem explanation_default_only_when_missing (data : LLMResponse)
    (t : RawPost) (event : Event) :
    ((mkStructuredEvent t event).explanation = event.explanation) ∧
    (data.explanation = none →
      (infer_event_from_tweet data).explanation =
        "No explanation provided by the model." ∧
      (infer_event_from_tweet data).explanation ≠ "") ∧
    (∀ s, data.explanation = some s →
      (infer_event_from_tweet data).explanation = s) := by
  refine ⟨rfl, fun h => ?_, (infer_event_fields_spec data).2.2.2.1⟩
  have he := (infer_event_fields_spec data).2.2.2.2 h
  exact ⟨he, by rw [he]; decide⟩

/-- C9 amended witness: the omitted-key case yields the non-empty
default. -/
theorem explanation_default_only_when_missing_witness :
    (infer_event_from_tweet
      { event_type := some "OTHER", country_region := some "Global",
        impact := some "Faible", explanation := none }).explanation =
      "No explanation provided by the model." ∧
    (infer_event_from_tweet
      { event_type := some "OTHER", country_region := some "Global",
        impact := some "Faible", explanation := none }).explanation ≠ "" :=
  (explanation_default_only_when_missing
    { event_type := some "OTHER", country_region := some "Global",
      impact := some "Faible", explanation := none }
    { id := "1", created_at := "c", text := "x" }
    { event_type := "OTHER", country_region := "Global", impact := "Faible",
      explanation := "e" }).2.1 rfl

/-- One row of the dashboard's dataframe (`app.py`, `main`), restricted
to the columns the filters read: `tweet_created_at` as seconds on an
absolute scale, plus the three enumerated columns. -/
structure DisplayRow where
  ts : Int
  impact : String
  event_type : String
  country_region : String
deriving DecidableEq, Repr

/-- The sidebar's discrete time-range choices (`app.py`, the
`selectbox` options). -/
inductive TimeWindow
  | all
  | last30min
  | last1h
  | last2h
  | last24h
  | last5days
deriving DecidableEq, Repr

/-- The `timedelta` chosen for each non-`All` window (`app.py`), in
seconds; `none` for `All`. -/
def windowDelta : TimeWindow → Option Int
  | TimeWindow.all => none
  | TimeWindow.last30min => some 1800
  | TimeWindow.last1h => some 3600
  | TimeWindow.last2h => some 7200
  | TimeWindow.last24h => some 86400
  | TimeWindow.last5days => some 432000

/-- The time-window filter of `app.py`: compute the maximum
`tweet_created_at` of the dataframe; if it exists and the window is not
`All`, keep the rows at or after `max_time - delta`. -/
def apply_time_window (w : TimeWindow) (rows : List DisplayRow) :
    List DisplayRow :=
  match (rows.map DisplayRow.ts).max? with
  | none => rows
  | some maxT =>
    match windowDelta w with
    | none => rows
    | some d => rows.filter fun r => decide (maxT - d ≤ r.ts)

/-- The impact multiselect filter of `app.py`: `if selected_impacts:`
skips the filter entirely for an empty selection. -/
def apply_impact_filter (selected : List String) (rows : List DisplayRow) :
    List DisplayRow :=
  if selected.isEmpty then rows
  else rows.filter fun r => selected.contains r.impact

/-- The event-type multiselect filter of `app.py`:
`if selected_type_codes is not None and selected_type_codes:`. -/
def apply_type_filter (selected : Option (List String))
    (rows : List DisplayRow) : List DisplayRow :=
  match selected with
  | none => rows
  | some codes =>
    if codes.isEmpty then rows
    else rows.filter fun r => codes.contains r.event_type

/-- The region multiselect filter of `app.py`:
`if selected_regions is not None and selected_regions:`. -/
def apply_region_filter (selected : Option (List String))
    (rows : List DisplayRow) : List DisplayRow :=
  match selected with
  | none => rows
  | some regions =>
    if regions.isEmpty then rows
    else rows.filter fun r => regions.contains r.country_region

instance : Std.Antisymm (fun x1 x2 : Int => x1 ≤ x2) :=
  ⟨by intro a b h1 h2; exact le_antisymm h1 h2⟩

/-- C7: with `T` the maximum timestamp of the loaded rows and a
non-`All` window of width `d`, the time-window filter keeps exactly the
rows whose timestamp is at least `T - d`. -/
theorem time_window_keeps_recent (w : TimeWindow) (rows : List DisplayRow)
    (T d : Int)
    (hmax : (rows.map DisplayRow.ts).max? = some T)
    (hw : windowDelta w = some d) :
    (T ∈ rows.map DisplayRow.ts ∧ ∀ r ∈ rows, r.ts ≤ T) ∧
    apply_time_window w rows =
      rows.filter (fun r => decide (T - d ≤ r.ts)) ∧
    ∀ r, r ∈ apply_time_window w rows ↔ r ∈ rows ∧ T - d ≤ r.ts := by
  have hiff := @List.max?_eq_some_iff Int T _ _ _
    (fun a : Int => le_refl a) max_choice
    (fun a b c : Int => max_le_iff) (rows.map DisplayRow.ts)
  obtain ⟨hTmem, hTub⟩ := hiff.mp hmax
  have hfilter : apply_time_window w rows =
      rows.filter (fun r => decide (T - d ≤ r.ts)) := by
    unfold apply_time_window
    rw [hmax, hw]
  refine ⟨⟨hTmem, fun r hr => hTub r.ts (List.mem_map_of_mem _ hr)⟩,
    hfilter, fun r => ?_⟩
  rw [hfilter]
  simp [List.mem_filter]

/-- C7 witness: the spec's scenario — events 10 minutes, 2 hours and 10
days before the latest one; "Last 1 hour" keeps exactly the most recent
row. -/
theorem time_window_keeps_recent_witness :
    apply_time_window TimeWindow.last1h
        [{ ts := 999400, impact := "Élevé", event_type := "CRYPTO",
           country_region := "US" },
         { ts := 992800, impact := "Moyen", event_type := "OTHER",
           country_region := "EU" },
         { ts := 136000, impact := "Faible", event_type := "EARNINGS",
           country_region := "UK" }] =
      [{ ts := 999400, impact := "Élevé", event_type := "CRYPTO",
         country_region := "US" }] ∧
    ∀ r, r ∈ apply_time_window TimeWindow.last1h
        [{ ts := 999400, impact := "Élevé", event_type := "CRYPTO",
           country_region := "US" },
         { ts := 992800, impact := "Moyen", event_type := "OTHER",
           country_region := "EU" },
         { ts := 136000, impact := "Faible", event_type := "EARNINGS",
           country_region := "UK" }] ↔
      r ∈ [{ ts := 999400, impact := "Élevé", event_type := "CRYPTO",
             country_region := "US" },
           { ts := 992800, impact := "Moyen", event_type := "OTHER",
             country_region := "EU" },
           { ts := 136000, impact := "Faible", event_type := "EARNINGS",
             country_region := "UK" }] ∧ 999400 - 3600 ≤ r.ts :=
  ⟨by decide,
   (time_window_keeps_recent TimeWindow.last1h _ 999400 3600
     (by decide) rfl).2.2⟩

/-- C10: an empty multiselect selection leaves the row set unchanged for
each of the impact, event-type and region filters, while a non-empty
selection keeps exactly the rows whose value is a member of the
selection. -/
theorem empty_multiselect_skips_filter (rows : List DisplayRow)
    (sel : List String) :
    (apply_impact_filter [] rows = rows) ∧
    (apply_type_filter (some []) rows = rows) ∧
    (apply_region_filter (some []) rows = rows) ∧
    (sel ≠ [] → ∀ r, r ∈ apply_impact_filter sel rows ↔
      r ∈ rows ∧ r.impact ∈ sel) ∧
    (sel ≠ [] → ∀ r, r ∈ apply_type_filter (some sel) rows ↔
      r ∈ rows ∧ r.event_type ∈ sel) ∧
    (sel ≠ [] → ∀ r, r ∈ apply_region_filter (some sel) rows ↔
      r ∈ rows ∧ r.country_region ∈ sel) := by
  refine ⟨rfl, rfl, rfl, fun h r => ?_, fun h r => ?_, fun h r => ?_⟩ <;>
    simp [apply_impact_filter, apply_type_filter, apply_region_filter,
      List.isEmpty_iff, h, List.mem_filter]

/-- C10 witness: an empty and a singleton impact selection on a concrete
two-row set. -/
theorem empty_multiselect_skips_filter_witness :
    (apply_impact_filter []
      [{ ts := 0, impact := "Élevé", event_type := "CRYPTO",
         country_region := "US" },
       { ts := 1, impact := "Faible", event_type := "OTHER",
         country_region := "EU" }] =
      [{ ts := 0, impact := "Élevé", event_type := "CRYPTO",
         country_region := "US" },
       { ts := 1, impact := "Faible", event_type := "OTHER",
         country_region := "EU" }]) ∧
    ∀ r, r ∈ apply_impact_filter ["Élevé"]
        [{ ts := 0, impact := "Élevé", event_type := "CRYPTO",
           country_region := "US" },
         { ts := 1, impact := "Faible", event_type := "OTHER",
           country_region := "EU" }] ↔
      r ∈ [{ ts := 0, impact := "Élevé", event_type := "CRYPTO",
             country_region := "US" },
           { ts := 1, impact := "Faible", event_type := "OTHER",
             country_region := "EU" }] ∧ r.impact ∈ ["Élevé"] :=
  ⟨(empty_multiselect_skips_filter _ ["Élevé"]).1,
   (empty_multiselect_skips_filter _ ["Élevé"]).2.2.2.1 (by simp)⟩

/-- The jittered x-axis value (`app.py`):
`tweet_created_at + to_timedelta(jitter_seconds)` where `jitter_seconds`
is drawn uniformly from `[-60, 60)`; time measured in seconds. -/
def tweet_created_at_jitter (ts jitter_seconds : ℚ) : ℚ :=
  ts + jitter_seconds

/-- The x-axis field of the timeline chart (`app.py`,
`alt.X("tweet_created_at_jitter:T", ...)`). -/
def timeline_x_field : String := "tweet_created_at_jitter"

/-- The fields shown in the timeline chart's tooltip (`app.py`, the
`tooltip=[...]` list). -/
def timeline_tooltip_fields : List String :=
  ["tweet_created_at", "event_type_label", "country_region", "impact",
   "tweet_text", "explanation"]

/-- The columns of the dataframe built by `build_events_dataframe`
(`app.py`), in its preferred order. -/
def df_columns : List String :=
  ["tweet_created_at", "tweet_created_at_display", "tweet_date",
   "event_type", "event_type_label", "country_region", "impact",
   "impact_size", "tweet_text", "explanation", "tweet_id"]

/-- The filtered dataframe's columns after the jitter column is added
(`app.py`). -/
def df_filtered_columns : List String :=
  df_columns ++ ["tweet_created_at_jitter"]

/-- `cols_to_drop` from `app.py`: columns removed from the detail
table. -/
def cols_to_drop : List String :=
  ["tweet_date", "event_type", "impact_size", "tweet_text_short",
   "tweet_id", "tweet_created_at_jitter"]

/-- The detail table's columns (`app.py`): drop the raw
`tweet_created_at`, rename the formatted display column to
`tweet_created_at`, then drop `cols_to_drop`. -/
def df_display_columns : List String :=
  ((df_filtered_columns.filter fun c => !decide (c = "tweet_created_at")).map
      fun c => if c = "tweet_created_at_display" then "tweet_created_at"
        else c).filter
    fun c => !decide (c ∈ cols_to_drop)

/-- C8: a jitter drawn from `[-60, 60]` moves the plotted timestamp by at
most 60 seconds from the true one, the jittered column is only the
chart's x-axis — the tooltip shows the true `tweet_created_at` and not
the jitter column — and the detail table drops the jitter column while
keeping the (formatted) true timestamp. -/
theorem jitter_visual_only (ts j : ℚ) (h1 : -60 ≤ j) (h2 : j ≤ 60) :
    |tweet_created_at_jitter ts j - ts| ≤ 60 ∧
    timeline_x_field = "tweet_created_at_jitter" ∧
    "tweet_created_at" ∈ timeline_tooltip_fields ∧
    timeline_x_field ∉ timeline_tooltip_fields ∧
    timeline_x_field ∉ df_display_columns ∧
    "tweet_created_at" ∈ df_display_columns := by
  refine ⟨?_, rfl, by decide, by decide, by decide, by decide⟩
  have : tweet_created_at_jitter ts j - ts = j := by
    simp [tweet_created_at_jitter]
  rw [this]
  exact abs_le.mpr ⟨h1, h2⟩

/-- C8 witness: a concrete jitter of 59.5 seconds. -/
theorem jitter_visual_only_witness :
    |tweet_created_at_jitter 1000 (119/2) - 1000| ≤ 60 ∧
    timeline_x_field = "tweet_created_at_jitter" ∧
    "tweet_created_at" ∈ timeline_tooltip_fields ∧
    timeline_x_field ∉ timeline_tooltip_fields ∧
    timeline_x_field ∉ df_display_columns ∧
    "tweet_created_at" ∈ df_display_columns :=
  jitter_visual_only 1000 (119/2) (by norm_num) (by norm_num)

/-- Lexicographic-by-code-point comparison of character lists: the order
Python's `sorted` uses on strings in `load_latest_events_file`
(`app.py`). Defined structurally so it evaluates inside the kernel. -/
def charListLe : List Char → List Char → Bool
  | [], _ => true
  | _ :: _, [] => false
  | a :: as, b :: bs =>
    if a.toNat < b.toNat then true
    else if b.toNat < a.toNat then false
    else charListLe as bs

/-- Python's `<=` on strings (code-point lexicographic order), applied
to filenames. -/
def filenameLe (a b : String) : Bool := charListLe a.data b.data

/-- Whether a filename matches the glob `*_events.json` (`app.py`,
`structured_dir.glob("*_events.json")`). -/
def matches_events_glob (name : String) : Bool :=
  "_events.json".data.isSuffixOf name.data

/-- What a structured-events file on disk parses to: a JSON event list,
or a parse failure (`json.load` raising). -/
inductive FileData
  | parsed (events : List StructuredEvent)
  | invalid
deriving DecidableEq, Repr

/-- The event list `load_latest_events_file` extracts from the chosen
file: its content on parse success, `[]` on parse failure. -/
def dataEvents : FileData → List StructuredEvent
  | FileData.parsed events => events
  | FileData.invalid => []

/-- `load_latest_events_file` (`app.py`): `none` models an absent
`structured_events` directory, otherwise `entries` is the directory
listing (filename and parse outcome).  Filter by the glob, sort by
filename, take the last file; an absent directory or empty match list
yields `(none, [])`, an unparsable chosen file yields its path with
`[]`. -/
def load_latest_events_file (dir : Option (List (String × FileData))) :
    Option String × List StructuredEvent :=
  match dir with
  | none => (none, [])
  | some entries =>
    match ((entries.filter fun e => matches_events_glob e.1).mergeSort
        fun a b => filenameLe a.1 b.1).getLast? with
    | none => (none, [])
    | some latest => (some latest.1, dataEvents latest.2)

/-- Helper: `charListLe` is total. -/
theorem charListLe_total :
    ∀ as bs, (charListLe as bs || charListLe bs as) = true := by
  intro as
  induction as with
  | nil => intro bs; simp [charListLe]
  | cons a as ih =>
    intro bs
    cases bs with
    | nil => simp [charListLe]
    | cons b bs =>
      simp only [charListLe]
      by_cases h1 : a.toNat < b.toNat
      · simp [h1]
      · by_cases h2 : b.toNat < a.toNat
        · simp [h1, h2]
        · simpa [h1, h2] using ih bs

/-- Helper: `charListLe` is transitive. -/
theorem charListLe_trans :
    ∀ as bs cs, charListLe as bs = true → charListLe bs cs = true →
      charListLe as cs = true := by
  intro as
  induction as with
  | nil => intro bs cs _ _; simp [charListLe]
  | cons a as ih =>
    intro bs cs hab hbc
    cases bs with
    | nil => simp [charListLe] at hab
    | cons b bs =>
      cases cs with
      | nil => simp [charListLe] at hbc
      | cons c cs =>
        simp only [charListLe] at hab hbc ⊢
        rcases Nat.lt_trichotomy a.toNat b.toNat with h1 | h1 | h1 <;>
          rcases Nat.lt_trichotomy b.toNat c.toNat with h2 | h2 | h2
        · simp [show a.toNat < c.toNat from by omega]
        · simp [show a.toNat < c.toNat from by omega]
        · simp [show ¬ b.toNat < c.toNat from by omega, h2] at hbc
        · simp [show a.toNat < c.toNat from by omega]
        · have hab' : charListLe as bs = true := by
            simpa [show ¬ a.toNat < b.toNat from by omega,
              show ¬ b.toNat < a.toNat from by omega] using hab
          have hbc' : charListLe bs cs = true := by
            simpa [show ¬ b.toNat < c.toNat from by omega,
              show ¬ c.toNat < b.toNat from by omega] using hbc
          simp [show ¬ a.toNat < c.toNat from by omega,
            show ¬ c.toNat < a.toNat from by omega, ih bs cs hab' hbc']
        · simp [show ¬ b.toNat < c.toNat from by omega, h2] at hbc
        · simp [show ¬ a.toNat < b.toNat from by omega, h1] at hab
        · simp [show ¬ a.toNat < b.toNat from by omega, h1] at hab
        · simp [show ¬ a.toNat < b.toNat from by omega, h1] at hab

/-- Helper: `charListLe` is antisymmetric. -/
theorem charListLe_antisymm :
    ∀ as bs, charListLe as bs = true → charListLe bs as = true →
      as = bs := by
  intro as
  induction as with
  | nil =>
    intro bs h1 h2
    cases bs with
    | nil => rfl
    | cons b bs => simp [charListLe] at h2
  | cons a as ih =>
    intro bs h1 h2
    cases bs with
    | nil => simp [charListLe] at h1
    | cons b bs =>
      simp only [charListLe] at h1 h2
      rcases Nat.lt_trichotomy a.toNat b.toNat with h | h | h
      · simp [show ¬ b.toNat < a.toNat from by omega, h] at h2
      · have hab : a = b := by
          apply Char.ext
          apply UInt32.ext
          exact h
        subst hab
        have h1' : charListLe as bs = true := by
          simpa [Nat.lt_irrefl] using h1
        have h2' : charListLe bs as = true := by
          simpa [Nat.lt_irrefl] using h2
        rw [ih bs h1' h2']
      · simp [show ¬ a.toNat < b.toNat from by omega, h] at h1

/-- Helper: in a list that is pairwise `le`-sorted, every element is
`le` the last element (or is it). -/
theorem pairwise_le_getLast {α : Type} (le : α → α → Bool) :
    ∀ L : List α, L.Pairwise (fun a b => le a b = true) →
      ∀ lst, L.getLast? = some lst → ∀ x ∈ L, x = lst ∨ le x lst = true := by
  intro L
  induction L with
  | nil => intro _ lst h; cases h
  | cons a L ih =>
    intro hp lst hlst x hx
    cases L with
    | nil =>
      simp only [List.getLast?_singleton, Option.some.injEq] at hlst
      subst hlst
      rcases List.mem_singleton.mp hx with rfl
      exact Or.inl rfl
    | cons b L' =>
      rw [List.getLast?_cons_cons] at hlst
      obtain ⟨ha, hp'⟩ := List.pairwise_cons.mp hp
      have hlstmem : lst ∈ b :: L' := List.mem_of_mem_getLast? hlst
      rcases List.mem_cons.mp hx with rfl | hx'
      · exact Or.inr (ha lst hlstmem)
      · exact ih hp' lst hlst x hx'

/-- C5: `load_latest_events_file` returns `(none, [])` on an absent
directory and on a directory with no `*_events.json` file; otherwise it
returns the path of the file whose name sorts last lexicographically
among matching files, paired with its parsed content (`[]` when that
file fails to parse, via `dataEvents`). -/
theorem load_latest_picks_lexicographic_max :
    (load_latest_events_file none = (none, [])) ∧
    (∀ entries : List (String × FileData),
      entries.filter (fun e => matches_events_glob e.1) = [] →
      load_latest_events_file (some entries) = (none, [])) ∧
    (∀ (entries : List (String × FileData)) (name : String) (d : FileData),
      (entries.map Prod.fst).Nodup →
      (name, d) ∈ entries →
      matches_events_glob name = true →
      (∀ e ∈ entries, matches_events_glob e.1 = true →
        filenameLe e.1 name = true) →
      load_latest_events_file (some entries) = (some name, dataEvents d)) := by
  refine ⟨rfl, ?_, ?_⟩
  · intro entries hfil
    simp only [load_latest_events_file]
    rw [hfil, List.mergeSort_nil]
    rfl
  · intro entries name d hnodup hmem hmatch hub
    have htrans : ∀ x y z : String × FileData,
        filenameLe x.1 y.1 = true → filenameLe y.1 z.1 = true →
        filenameLe x.1 z.1 = true :=
      fun x y z => charListLe_trans x.1.data y.1.data z.1.data
    have htotal : ∀ x y : String × FileData,
        (filenameLe x.1 y.1 || filenameLe y.1 x.1) = true :=
      fun x y => charListLe_total x.1.data y.1.data
    have hmemF : (name, d) ∈
        entries.filter (fun e => matches_events_glob e.1) :=
      List.mem_filter.mpr ⟨hmem, hmatch⟩
    have hperm :
        ((entries.filter fun e => matches_events_glob e.1).mergeSort
          fun a b => filenameLe a.1 b.1).Perm
          (entries.filter fun e => matches_events_glob e.1) :=
      List.mergeSort_perm _ _
    have hsorted :
        ((entries.filter fun e => matches_events_glob e.1).mergeSort
          fun a b => filenameLe a.1 b.1).Pairwise
          (fun a b => filenameLe a.1 b.1 = true) :=
      List.sorted_mergeSort (fun a b c => htrans a b c)
        (fun a b => htotal a b) _
    have hmemL : (name, d) ∈
        ((entries.filter fun e => matches_events_glob e.1).mergeSort
          fun a b => filenameLe a.1 b.1) :=
      hperm.mem_iff.mpr hmemF
    have hLne :
        ((entries.filter fun e => matches_events_glob e.1).mergeSort
          fun a b => filenameLe a.1 b.1) ≠ [] :=
      List.ne_nil_of_mem hmemL
    obtain ⟨lst, hlst⟩ : ∃ lst,
        ((entries.filter fun e => matches_events_glob e.1).mergeSort
          fun a b => filenameLe a.1 b.1).getLast? = some lst := by
      cases hL : ((entries.filter fun e => matches_events_glob e.1).mergeSort
          fun a b => filenameLe a.1 b.1).getLast? with
      | none => exact absurd (List.getLast?_eq_none_iff.mp hL) hLne
      | some lst => exact ⟨lst, rfl⟩
    have hlstL := List.mem_of_mem_getLast? hlst
    have hlstF : lst ∈ entries.filter (fun e => matches_events_glob e.1) :=
      hperm.mem_iff.mp hlstL
    have hlstMatch : matches_events_glob lst.1 = true :=
      (List.mem_filter.mp hlstF).2
    have hlstEntries : lst ∈ entries := (List.mem_filter.mp hlstF).1
    have hle1 : filenameLe lst.1 name = true :=
      hub lst hlstEntries hlstMatch
    have heq : lst = (name, d) := by
      rcases pairwise_le_getLast _ _ hsorted lst hlst (name, d) hmemL with
        heq | hle2
      · exact heq.symm
      · have hname : lst.1 = name :=
          charListLe_antisymm lst.1.data name.data hle1 hle2 |>
            fun h => by
              exact String.ext h
        have hnodupF :
            ((entries.filter fun e => matches_events_glob e.1).map
              Prod.fst).Nodup :=
          List.Nodup.sublist (List.Sublist.map Prod.fst
            (List.filter_sublist entries)) hnodup
        exact List.inj_on_of_nodup_map hnodupF hlstF hmemF (by rw [hname])
    have hload : load_latest_events_file (some entries) =
        (some lst.1, dataEvents lst.2) := by
      simp only [load_latest_events_file]
      rw [hlst]
    rw [hload, heq]

/-- C5 witness: three matching files `a_events.json`, `b_events.json`,
`c_events.json` — the content of `c_events.json` is returned; and the
same listing with an unparsable `c_events.json` returns its path with an
empty event list. -/
theorem load_latest_picks_lexicographic_max_witness :
    load_latest_events_file (some
      [("a_events.json", FileData.parsed []),
       ("b_events.json", FileData.parsed []),
       ("c_events.json", FileData.parsed
         [{ tweet_id := "3", tweet_created_at := "2025-01-01T00:02:00Z",
            tweet_text := "c", event_type := "CRYPTO",
            country_region := "US", impact := "Moyen",
            explanation := "e3" }])]) =
      (some "c_events.json",
       [{ tweet_id := "3", tweet_created_at := "2025-01-01T00:02:00Z",
          tweet_text := "c", event_type := "CRYPTO", country_region := "US",
          impact := "Moyen", explanation := "e3" }]) ∧
    load_latest_events_file (some
      [("a_events.json", FileData.parsed []),
       ("b_events.json", FileData.parsed []),
       ("c_events.json", FileData.invalid)]) =
      (some "c_events.json", []) :=
  ⟨load_latest_picks_lexicographic_max.2.2 _ "c_events.json"
      (FileData.parsed
        [{ tweet_id := "3", tweet_created_at := "2025-01-01T00:02:00Z",
           tweet_text := "c", event_type := "CRYPTO", country_region := "US",
           impact := "Moyen", explanation := "e3" }])
      (by decide) (by decide) (by decide) (by decide),
   load_latest_picks_lexicographic_max.2.2 _ "c_events.json"
      FileData.invalid (by decide) (by decide) (by decide) (by decide)⟩
